import Mathlib

/-!
Shallow embedding of the sales ingestion and normalization pipeline of
`src/lib/unified-scraper.ts` (collection-tracker repository).

Modelling conventions:
* JS strings are Lean `String`; `String.toLowerCase` is modelled for the
  ASCII range (`lowerChar`), which covers every token the classifier and
  name filter compare against.
* JS numbers (sale prices) are modelled as exact rationals `ℚ`;
  `Math.round` rounds half towards positive infinity, which is Mathlib's
  `round` (`⌊x + 1/2⌋`).
* Sale dates are modelled as `Nat` timestamps.  The store keeps ISO-8601
  strings whose lexicographic order is chronological, so `ORDER BY
  sale_date DESC` becomes sorting by `≥` on the timestamp; tie order among
  equal dates is unspecified in SQL and fixed here by a stable sort.
* The SQLite store is a `List SaleRow`.  The row fields `id` (a random
  UUID) and `fetched_at` (wall clock) are not modelled: no query of the
  pipeline reads them.  `SELECT ... WHERE / ORDER BY / LIMIT` become
  filter / sort / take; SQL `LIKE` is modelled with its `%`/`_` wildcard
  semantics and ASCII case-insensitivity (`sqlLike`).
* `scrapeAndStorePlayer` is modelled as a pure function of the fetched
  listings (the parsed API response) and the store, returning the result
  record together with the new store.  The network call itself, logging,
  and the `responseTimeMs` / error-message fields are not modelled.
-/

namespace UnifiedScraper

/-! ## JS string primitives -/

/-- ASCII model of `String.prototype.toLowerCase` on one character. -/
def lowerChar (c : Char) : Char :=
  if 65 ≤ c.toNat ∧ c.toNat ≤ 90 then Char.ofNat (c.toNat + 32) else c

/-- `title.toLowerCase()` (ASCII model). -/
def lowerStr (s : String) : String := String.mk (s.data.map lowerChar)

/-- JS whitespace characters appearing in this domain (model of `\s` and of
the characters removed by `String.prototype.trim`). -/
def isWsChar (c : Char) : Bool := c = ' ' || c = '\t' || c = '\n' || c = '\r'

/-- `String.prototype.trim`. -/
def strTrim (s : String) : String :=
  String.mk (((s.data.dropWhile isWsChar).reverse.dropWhile isWsChar).reverse)

/-- Substring test on character lists: `pat` occurs contiguously in the list. -/
def listContains (pat : List Char) : List Char → Bool
  | [] => pat.isEmpty
  | c :: rest => pat.isPrefixOf (c :: rest) || listContains pat rest

/-- `s.includes(pat)` (JS `String.prototype.includes`). -/
def strIncludes (s pat : String) : Bool := listContains pat.data s.data

/-- `\d` of JS regexes. -/
def isDigitChar (c : Char) : Bool := 48 ≤ c.toNat && c.toNat ≤ 57

/-- `\w` of JS regexes: `[A-Za-z0-9_]`. -/
def isWordChar (c : Char) : Bool :=
  isDigitChar c || (97 ≤ (lowerChar c).toNat && (lowerChar c).toNat ≤ 122) || c = '_'

/-! ## Classification constants (`unified-scraper.ts` lines 85-152) -/

/-- Parallel/color indicators to EXCLUDE for base autos. -/
def PARALLEL_COLORS : List String :=
  ["refractor", "shimmer", "speckle", "mojo", "lava", "wave",
   "sapphire", "aqua", "sky blue",
   "purple", "blue", "green", "gold", "orange", "red", "yellow", "pink", "black",
   "atomic", "prism", "hyper", "x-fractor"]

/-- Graded card indicators. -/
def GRADED_INDICATORS : List String :=
  ["psa", "bgs", "sgc", "cgc", "hga", "csg",
   "gem mint", "gem mt 10", "mint 9", "perfect 10", "pristine"]

/-- Lot indicators - text patterns. -/
def LOT_INDICATORS : List String :=
  ["(2)", "(3)", "(4)", "(5)", "(6)", "(10)", "(20)",
   "[2]", "[3]", "[4]", "[5]", "[6]", "[10]", "[20]",
   "lot", "bundle", "set of", "collection of", "group",
   "& ", " and ", " + "]

/-- Excluded products (not Bowman Chrome prospects). -/
def EXCLUDED_PRODUCTS : List String :=
  ["topps chrome", "panini", "donruss", "prizm", "contenders",
   "leaf", "sterling", "heritage", "finest",
   "arizona fall league", "fall league", "aflac",
   "redemption", "vip", "relic", "patch",
   "bunt", "digital", "nft", "virtual",
   "bowman u", "bowman university",
   "mega"]

/-- In-Person (IP) autograph indicators - after-market signatures. -/
def IP_AUTOGRAPH_INDICATORS : List String :=
  [" ip ", " ip auto", "in person", "in-person", "signed in", "signed at",
   "signed by", "hand signed", "hand-signed", "authentic auto", "convention",
   "meet and greet", "autograph event", "signing event"]

/-! ## Regex models

`SERIAL_PATTERN = /\/\d{1,4}\b/` and the seven `LOT_QUANTITY_PATTERNS`.
Each is modelled as a matcher that attempts the pattern at one position
(given the previous character, for `\b`) and a scanner that tries
positions left to right, returning the leftmost match text (JS
`String.prototype.match` with a non-global regex returns `match[0]`, the
leftmost match).  Greedy `\d+`/`\s*` repetition never needs backtracking
in these patterns because the character that follows the repeated class
can never itself belong to the class. -/

/-- Leftmost-match scanner: try `m` at each start position. -/
def scanMatch (m : Option Char → List Char → Option (List Char)) :
    Option Char → List Char → Option (List Char)
  | prev, [] => m prev []
  | prev, c :: cs =>
    match m prev (c :: cs) with
    | some r => some r
    | none => scanMatch m (some c) cs

/-- `\b` to the left of a word character: start of string or a non-word
character before. -/
def boundaryBefore (prev : Option Char) : Bool :=
  match prev with
  | none => true
  | some p => !isWordChar p

/-- `\b` to the right of a word character: end of string or a non-word
character next. -/
def boundaryAfter (rest : List Char) : Bool :=
  match rest with
  | [] => true
  | c :: _ => !isWordChar c

/-- `/\/\d{1,4}\b/` attempted at one position.  `go` consumes up to four
digits after the slash; on the first non-digit (or the end) the match
succeeds iff at least one digit was read and a word boundary follows.
A fifth digit makes every alternative fail (shorter digit runs are
followed by a digit, which is a word character). -/
def serialGo : List Char → Nat → Bool
  | [], n => decide (1 ≤ n)
  | c :: cs, n =>
    if isDigitChar c then
      if n < 4 then serialGo cs (n + 1) else false
    else
      decide (1 ≤ n) && !isWordChar c

/-- `SERIAL_PATTERN.test(title)`: `/\/\d{1,4}\b/` anywhere in the string. -/
def serialTestFrom : List Char → Bool
  | [] => false
  | c :: cs => (if c = '/' then serialGo cs 0 else false) || serialTestFrom cs

/-- `SERIAL_PATTERN.test(s)`. -/
def serialPatternTest (s : String) : Bool := serialTestFrom s.data

/-- `/\(x\d+\)/i` (and `/\[x\d+\]/i` via the bracket arguments). -/
def matchBrkXDigits (op cl : Char) (_prev : Option Char) : List Char → Option (List Char)
  | a :: b :: rest =>
    if a = op && lowerChar b = 'x' then
      match rest.span isDigitChar with
      | ([], _) => none
      | (ds, rest') =>
        match rest' with
        | c :: _ => if c = cl then some (a :: b :: ds ++ [cl]) else none
        | [] => none
    else none
  | _ => none

/-- `/\(\d+x\)/i` (and `/\[\d+x\]/i`). -/
def matchBrkDigitsX (op cl : Char) (_prev : Option Char) : List Char → Option (List Char)
  | a :: rest =>
    if a = op then
      match rest.span isDigitChar with
      | ([], _) => none
      | (ds, rest') =>
        match rest' with
        | x :: c :: _ =>
          if lowerChar x = 'x' && c = cl then some (a :: ds ++ [x, cl]) else none
        | _ => none
    else none
  | [] => none

/-- `/\bx\d+\b/i`. -/
def matchXDigits (prev : Option Char) : List Char → Option (List Char)
  | c :: rest =>
    if lowerChar c = 'x' && boundaryBefore prev then
      match rest.span isDigitChar with
      | ([], _) => none
      | (ds, rest') => if boundaryAfter rest' then some (c :: ds) else none
    else none
  | [] => none

/-- The tail of `/\(\d+\s*cards?\)/i` after the digits and whitespace:
`card`, optional `s`, then the closing bracket. -/
def matchCardTail (cl : Char) : List Char → Option (List Char)
  | c1 :: c2 :: c3 :: c4 :: rest =>
    if lowerChar c1 = 'c' && lowerChar c2 = 'a' && lowerChar c3 = 'r' && lowerChar c4 = 'd' then
      match rest with
      | c :: rest' =>
        if c = cl then some [c1, c2, c3, c4, cl]
        else if lowerChar c = 's' then
          match rest' with
          | d :: _ => if d = cl then some [c1, c2, c3, c4, c, cl] else none
          | [] => none
        else none
      | [] => none
    else none
  | _ => none

/-- `/\(\d+\s*cards?\)/i` (and `/\[\d+\s*cards?\]/i`). -/
def matchBrkNCards (op cl : Char) (_prev : Option Char) : List Char → Option (List Char)
  | a :: rest =>
    if a = op then
      match rest.span isDigitChar with
      | ([], _) => none
      | (ds, rest') =>
        match rest'.span isWsChar with
        | (ws, rest'') =>
          match matchCardTail cl rest'' with
          | some tail => some (a :: ds ++ ws ++ tail)
          | none => none
    else none
  | [] => none

/-- `LOT_QUANTITY_PATTERNS` in source order, as position matchers. -/
def LOT_QUANTITY_MATCHERS : List (Option Char → List Char → Option (List Char)) :=
  [matchBrkXDigits '(' ')', matchBrkXDigits '[' ']',
   matchBrkDigitsX '(' ')', matchBrkDigitsX '[' ']',
   matchXDigits,
   matchBrkNCards '(' ')', matchBrkNCards '[' ']']

/-- The loop over `LOT_QUANTITY_PATTERNS`: first pattern (in list order)
that matches anywhere in the title, together with its `match[0]` text. -/
def findLotQuantity (title : String) : Option String :=
  LOT_QUANTITY_MATCHERS.findSome? fun m => (scanMatch m none title.data).map String.mk

/-! ## Listing data (`ParsedSale` / `FilteredSale`) -/

/-- `ParsedSale`: one raw listing parsed out of the API response
(`currency` is dropped: non-USD rows never leave the parser). -/
structure ParsedSale where
  title : String
  ebayUrl : String
  ebayItemId : String
  salePrice : ℚ
  saleDate : Nat
  saleType : String
  releaseYear : Option Nat
  deriving Repr, DecidableEq

/-- `FilteredSale extends ParsedSale`. -/
structure FilteredSale extends ParsedSale where
  isBaseAuto : Bool
  isRefractor : Bool
  exclusionReason : Option String
  deriving Repr, DecidableEq

/-- Helper for the exclusion branches that leave `isRefractor` false. -/
def mkExcluded (sale : ParsedSale) (reason : String) : FilteredSale :=
  { toParsedSale := sale, isBaseAuto := false, isRefractor := false,
    exclusionReason := some reason }

/-- `categorizeListingSale` (lines 354-449).  The source mutates
`isBaseAuto`/`isRefractor`/`exclusionReason` through a cascade of blocks,
each guarded by `isBaseAuto` still being true and breaking on its first
matching token; that control flow is exactly a first-match cascade. -/
def categorizeListingSale (sale : ParsedSale) : FilteredSale :=
  let lowerTitle := lowerStr sale.title
  match GRADED_INDICATORS.find? (fun g => strIncludes lowerTitle g) with
  | some g => mkExcluded sale ("Graded card: " ++ g)
  | none =>
  match LOT_INDICATORS.find? (fun l => strIncludes lowerTitle l) with
  | some l => mkExcluded sale ("Lot/bundle: " ++ l)
  | none =>
  match findLotQuantity sale.title with
  | some m => mkExcluded sale ("Lot quantity: " ++ m)
  | none =>
  match EXCLUDED_PRODUCTS.find? (fun p => strIncludes lowerTitle p) with
  | some p => mkExcluded sale ("Wrong product: " ++ p)
  | none =>
  match IP_AUTOGRAPH_INDICATORS.find? (fun ind => strIncludes lowerTitle ind) with
  | some ind => mkExcluded sale ("IP/aftermarket auto: " ++ strTrim ind)
  | none =>
  if serialPatternTest sale.title then
    { toParsedSale := sale, isBaseAuto := false,
      isRefractor := strIncludes lowerTitle "/499" && strIncludes lowerTitle "refractor",
      exclusionReason := some "Numbered parallel" }
  else
  match PARALLEL_COLORS.find? (fun c => strIncludes lowerTitle c) with
  | some c =>
    { toParsedSale := sale, isBaseAuto := false,
      isRefractor := c == "refractor" && strIncludes lowerTitle "/499",
      exclusionReason := some ("Parallel: " ++ c) }
  | none =>
    { toParsedSale := sale, isBaseAuto := true, isRefractor := false,
      exclusionReason := none }

/-! ## Year inference -/

/-- The years contributed to `determineFirstBowmanYear`'s count map by
base-auto listings (`sale.releaseYear && sale.isBaseAuto`). -/
def baseYearsOf (sales : List FilteredSale) : List Nat :=
  sales.filterMap fun s => if s.isBaseAuto then s.releaseYear else none

/-- The years contributed by refractor (fallback) listings. -/
def refractorYearsOf (sales : List FilteredSale) : List Nat :=
  sales.filterMap fun s => if s.isRefractor then s.releaseYear else none

/-- `determineFirstBowmanYear` (lines 455-479).  The source tallies years
in a count map whose values are never read; only the key set matters, so
the map is modelled by the list of contributed years.  Sorting ascending
and taking index 0 (`years[0]`, `none` when the map is empty) is the
`head?` of the sorted list. -/
def determineFirstBowmanYear (sales : List FilteredSale) : Option Nat :=
  let ys := baseYearsOf sales
  let ys := if ys.isEmpty then refractorYearsOf sales else ys
  (List.insertionSort (· ≤ ·) ys).head?

/-! ## URL normalization and the name filter -/

/-- `normalizeEbayUrl` (lines 314-323): strip everything from the query
string on (`origin + pathname`, i.e. the part before the first `?`). -/
def normalizeEbayUrl (url : String) : String :=
  String.mk (url.data.takeWhile (· ≠ '?'))

/-- The tokens of `lowerName.split(/[\s-]+/)`: maximal runs of characters
that are neither whitespace nor a hyphen (empty fragments produced by the
JS split at the ends are dropped here; they never pass the length
filter). -/
def isNameSepChar (c : Char) : Bool := isWsChar c || c = '-'

/-- Maximal non-separator runs of a character list. -/
def splitNameTokens : List Char → List (List Char)
  | [] => []
  | c :: cs =>
    if isNameSepChar c then splitNameTokens cs
    else
      match cs with
      | [] => [[c]]
      | d :: _ =>
        if isNameSepChar d then [c] :: splitNameTokens cs
        else
          match splitNameTokens cs with
          | t :: ts => (c :: t) :: ts
          | [] => [[c]]

/-- `titleContainsPlayerName` (lines 329-345). -/
def titleContainsPlayerName (title playerName : String) : Bool :=
  let lowerTitle := lowerStr title
  let lowerName := lowerStr playerName
  let nameParts := (splitNameTokens lowerName.data).filter fun p => 2 < p.length
  nameParts.all (fun p => listContains p lowerTitle.data) && !nameParts.isEmpty

/-! ## Database model -/

/-- The `card_type` column (`'base' | 'refractor'`). -/
inductive CardType where
  | base
  | refractor
  deriving Repr, DecidableEq

/-- One `individual_sales` row.  The `id` (random UUID) and `fetched_at`
(wall clock) columns are not modelled: nothing in the pipeline reads
them. -/
structure SaleRow where
  player_name : String
  normalized_player_name : String
  ebay_url : String
  ebay_item_id : String
  title : String
  sale_price : ℚ
  sale_date : Nat
  sale_type : String
  release_year : Option Nat
  card_type : CardType
  deriving Repr, DecidableEq

/-- SQLite `LIKE`: `%` matches any run, `_` any single character, ordinary
characters compare ASCII-case-insensitively (SQLite's default
`case_sensitive_like = OFF`). -/
def likeMatch : List Char → List Char → Bool
  | [], t => t.isEmpty
  | '%' :: ps, t => t.tails.any fun s => likeMatch ps s
  | '_' :: ps, t =>
    match t with
    | [] => false
    | _ :: ts => likeMatch ps ts
  | p :: ps, t =>
    match t with
    | [] => false
    | c :: ts => (lowerChar p == lowerChar c) && likeMatch ps ts

/-- `text LIKE pat`. -/
def sqlLike (pat text : String) : Bool := likeMatch pat.data text.data

/-- `saleExists` (lines 531-540): a row matches when its `ebay_url` equals
the normalized URL or matches `normalizedUrl || '%'` under `LIKE` (the
backwards-compatibility prefix check for rows stored before URL
normalization). -/
def saleExists (db : List SaleRow) (ebayUrl : String) : Bool :=
  let normalizedUrl := normalizeEbayUrl ebayUrl
  db.any fun row =>
    row.ebay_url == normalizedUrl || sqlLike (normalizedUrl ++ "%") row.ebay_url

/-- `insertSale` (lines 546-582): returns `true` and the extended store on
insert, `false` and the unchanged store on duplicate. -/
def insertSale (db : List SaleRow) (playerName : String) (sale : FilteredSale)
    (cardType : CardType) : Bool × List SaleRow :=
  let normalizedUrl := normalizeEbayUrl sale.ebayUrl
  if saleExists db normalizedUrl then (false, db)
  else
    (true, db ++
      [{ player_name := playerName,
         normalized_player_name := strTrim (lowerStr playerName),
         ebay_url := normalizedUrl,
         ebay_item_id := sale.ebayItemId,
         title := sale.title,
         sale_price := sale.salePrice,
         sale_date := sale.saleDate,
         sale_type := sale.saleType,
         release_year := sale.releaseYear,
         card_type := cardType }])

/-- The `WHERE` clause of `getPlayerSalesFromDb` / `getPlayerSalesCount`. -/
def rowMatchesPlayer (normalizedName : String) (releaseYear : Option Nat)
    (r : SaleRow) : Bool :=
  r.normalized_player_name == normalizedName &&
    (match releaseYear with
     | some y => r.release_year == some y
     | none => true)

/-- `getPlayerSalesFromDb` (lines 591-656): filter by normalized player
name and optional year, `ORDER BY sale_date DESC`, optional `LIMIT`.
(The optional `daysBack` cutoff is not modelled: the pipeline never passes
it.) -/
def getPlayerSalesFromDb (db : List SaleRow) (playerName : String)
    (releaseYear : Option Nat) (limit : Option Nat) : List SaleRow :=
  let normalizedName := strTrim (lowerStr playerName)
  let rows := db.filter (rowMatchesPlayer normalizedName releaseYear)
  let sorted := List.insertionSort (fun a b => b.sale_date ≤ a.sale_date) rows
  match limit with
  | some n => sorted.take n
  | none => sorted

/-- `getPlayerSalesCount` (lines 661-675). -/
def getPlayerSalesCount (db : List SaleRow) (playerName : String)
    (releaseYear : Option Nat) : Nat :=
  let normalizedName := strTrim (lowerStr playerName)
  (db.filter (rowMatchesPlayer normalizedName releaseYear)).length

/-! ## Pipeline orchestrator -/

/-- The structured error codes of `ScrapeResult.error`.  (`SCRAPE_ERROR`
wraps network/storage exceptions, which the pure model cannot raise.) -/
inductive ErrorCode where
  | NO_RESULTS
  | NO_VALID_SALES
  | SCRAPE_ERROR
  deriving Repr, DecidableEq

/-- `ScrapeResult` (lines 42-76), without the wall-clock `responseTimeMs`
and with the error modelled by its code (the message text is not
modelled). -/
structure ScrapeResult where
  playerName : String
  normalizedPlayerName : String
  success : Bool
  totalResultsFromApi : Nat
  baseAutosFiltered : Nat
  refractorsFiltered : Nat
  inferredFirstBowmanYear : Option Nat
  salesInserted : Nat
  salesDuplicate : Nat
  salesTotal : Nat
  cardType : Option CardType
  averagePrice : Option ℚ
  medianPrice : Option ℚ
  lastSalePrice : Option ℚ
  lastSaleDate : Option Nat
  sampleSize : Nat
  error : Option ErrorCode
  deriving Repr, DecidableEq

/-- Step 4 of `scrapeAndStorePlayer` (lines 750-780): select the variant
set to store and its card type. -/
def selectVariantSet (baseAutos refractors : List FilteredSale)
    (firstYear : Option Nat) : List FilteredSale × CardType :=
  match firstYear with
  | some fy =>
    let firstYearBaseAutos := baseAutos.filter fun s => s.releaseYear == some fy
    if !firstYearBaseAutos.isEmpty then (firstYearBaseAutos, .base)
    else
      let firstYearRefractors := refractors.filter fun s => s.releaseYear == some fy
      if !firstYearRefractors.isEmpty then (firstYearRefractors, .refractor)
      else ([], .base)
  | none =>
    if !baseAutos.isEmpty then (baseAutos, .base)
    else if !refractors.isEmpty then (refractors, .refractor)
    else ([], .base)

/-- Step 5 of `scrapeAndStorePlayer` (lines 808-819): the insertion loop,
returning `(inserted, duplicates, store)`. -/
def storeSalesLoop (playerName : String) (cardType : CardType) :
    List FilteredSale → List SaleRow → Nat × Nat × List SaleRow
  | [], db => (0, 0, db)
  | s :: rest, db =>
    let step := insertSale db playerName s cardType
    let next := storeSalesLoop playerName cardType rest step.2
    if step.1 then (next.1 + 1, next.2.1, next.2.2)
    else (next.1, next.2.1 + 1, next.2.2)

/-- `Math.round(x * 100) / 100` (Mathlib's `round` is `⌊x + 1/2⌋`, the
same half-up rounding as JS `Math.round`). -/
def round2 (x : ℚ) : ℚ := ((round (x * 100) : ℤ) : ℚ) / 100

/-- The market statistics block of step 6 (lines 826-842). -/
structure MarketStats where
  averagePrice : Option ℚ
  medianPrice : Option ℚ
  lastSalePrice : Option ℚ
  lastSaleDate : Option Nat
  deriving Repr, DecidableEq

/-- Step 6 of `scrapeAndStorePlayer` (lines 826-842): average, median and
last sale over the rows returned by `getPlayerSalesFromDb` with limit 5.
`prices` is the ascending sort of the sale prices
(`.sort((a, b) => a - b)`). -/
def computeMarketStats (recentSales : List SaleRow) : MarketStats :=
  if recentSales.isEmpty then
    { averagePrice := none, medianPrice := none,
      lastSalePrice := none, lastSaleDate := none }
  else
    let prices := List.insertionSort (fun a b : ℚ => a ≤ b)
      (recentSales.map (·.sale_price))
    let n := prices.length
    let averagePrice := round2 (prices.sum / (n : ℚ))
    let mid := n / 2
    let medianPrice :=
      if n % 2 ≠ 0 then prices.getD mid 0
      else round2 ((prices.getD (mid - 1) 0 + prices.getD mid 0) / 2)
    { averagePrice := some averagePrice, medianPrice := some medianPrice,
      lastSalePrice := recentSales.head?.map (·.sale_price),
      lastSaleDate := recentSales.head?.map (·.sale_date) }

/-- Step 2 (line 731): `rawSales.map(categorizeListingSale)`. -/
def categorizedOf (rawSales : List ParsedSale) : List FilteredSale :=
  rawSales.map categorizeListingSale

/-- Step 2b (line 735): keep only listings whose title contains the
player's name. -/
def nameMatchedOf (playerName : String) (rawSales : List ParsedSale) :
    List FilteredSale :=
  (categorizedOf rawSales).filter fun s => titleContainsPlayerName s.title playerName

/-- Step 3 (line 747): `targetYear || determineFirstBowmanYear(categorizedSales)`
— note the year is inferred from `categorizedSales`, not from the
name-filtered list. -/
def resolvedYearOf (targetYear : Option Nat) (rawSales : List ParsedSale) :
    Option Nat :=
  match targetYear with
  | some y => some y
  | none => determineFirstBowmanYear (categorizedOf rawSales)

/-- Step 4 applied to the pipeline's intermediate values: the variant set
that will be stored, with its card type. -/
def selectedOf (playerName : String) (targetYear : Option Nat)
    (rawSales : List ParsedSale) : List FilteredSale × CardType :=
  selectVariantSet
    ((nameMatchedOf playerName rawSales).filter (·.isBaseAuto))
    ((nameMatchedOf playerName rawSales).filter (·.isRefractor))
    (resolvedYearOf targetYear rawSales)

/-- Step 6's query (line 824): the at-most-5 most recent stored rows for
the player, optionally filtered to the resolved year. -/
def recentFiveOf (db : List SaleRow) (playerName : String)
    (releaseYear : Option Nat) : List SaleRow :=
  getPlayerSalesFromDb db playerName releaseYear (some 5)

/-- `scrapeAndStorePlayer` (lines 694-895) as a pure function of the
parsed API response (`rawSales`, the value the source's step 1 produces)
and the store.  `targetYear` is the optional known release year
(`targetYear || ...` in JS: the year is never 0, so truthiness is
`Option`). -/
def scrapeAndStorePlayer (playerName : String) (targetYear : Option Nat)
    (rawSales : List ParsedSale) (db : List SaleRow) :
    ScrapeResult × List SaleRow :=
  let normalizedName := strTrim (lowerStr playerName)
  if rawSales.isEmpty then
    ({ playerName := playerName, normalizedPlayerName := normalizedName,
       success := false, totalResultsFromApi := 0, baseAutosFiltered := 0,
       refractorsFiltered := 0, inferredFirstBowmanYear := targetYear,
       salesInserted := 0, salesDuplicate := 0, salesTotal := 0,
       cardType := none, averagePrice := none, medianPrice := none,
       lastSalePrice := none, lastSaleDate := none, sampleSize := 0,
       error := some .NO_RESULTS }, db)
  else
    let nameMatchedSales := nameMatchedOf playerName rawSales
    let baseAutos := nameMatchedSales.filter (·.isBaseAuto)
    let refractors := nameMatchedSales.filter (·.isRefractor)
    let firstYear := resolvedYearOf targetYear rawSales
    let sel := selectedOf playerName targetYear rawSales
    if sel.1.isEmpty then
      ({ playerName := playerName, normalizedPlayerName := normalizedName,
         success := false, totalResultsFromApi := rawSales.length,
         baseAutosFiltered := baseAutos.length,
         refractorsFiltered := refractors.length,
         inferredFirstBowmanYear := firstYear,
         salesInserted := 0, salesDuplicate := 0, salesTotal := 0,
         cardType := none, averagePrice := none, medianPrice := none,
         lastSalePrice := none, lastSaleDate := none, sampleSize := 0,
         error := some .NO_VALID_SALES }, db)
    else
      let stored := storeSalesLoop playerName sel.2 sel.1 db
      let db1 := stored.2.2
      let recentSales := getPlayerSalesFromDb db1 normalizedName firstYear (some 5)
      let stats := computeMarketStats recentSales
      ({ playerName := playerName, normalizedPlayerName := normalizedName,
         success := true, totalResultsFromApi := rawSales.length,
         baseAutosFiltered := baseAutos.length,
         refractorsFiltered := refractors.length,
         inferredFirstBowmanYear := firstYear,
         salesInserted := stored.1, salesDuplicate := stored.2.1,
         salesTotal := getPlayerSalesCount db1 normalizedName firstYear,
         cardType := some sel.2, averagePrice := stats.averagePrice,
         medianPrice := stats.medianPrice,
         lastSalePrice := stats.lastSalePrice,
         lastSaleDate := stats.lastSaleDate,
         sampleSize := recentSales.length,
         error := none }, db1)

/-! ## Concrete data for counterexamples and witnesses -/

/-- A sanctioned-fallback listing: refractor numbered /499. -/
def exSaleRef499 : ParsedSale :=
  { title := "2022 Bowman Chrome Refractor Auto /499",
    ebayUrl := "https://www.ebay.com/itm/10", ebayItemId := "10",
    salePrice := 25, saleDate := 5, saleType := "Auction",
    releaseYear := some 2022 }

/-- A clean base-auto listing for player John Smith, year 2023. -/
def exSaleA : ParsedSale :=
  { title := "2023 Bowman Chrome John Smith Auto",
    ebayUrl := "https://www.ebay.com/itm/2", ebayItemId := "2",
    salePrice := 40, saleDate := 100, saleType := "Auction",
    releaseYear := some 2023 }

/-- A clean base-auto listing for a different player (Jane Doe), year 2022. -/
def exSaleB : ParsedSale :=
  { title := "2022 Bowman Chrome Jane Doe Auto",
    ebayUrl := "https://www.ebay.com/itm/3", ebayItemId := "3",
    salePrice := 30, saleDate := 90, saleType := "Auction",
    releaseYear := some 2022 }

/-- A stored row from before URL normalization: its URL still carries a
query string. -/
def exLegacyRow : SaleRow :=
  { player_name := "Jane Doe", normalized_player_name := "jane doe",
    ebay_url := "https://www.ebay.com/itm/123?nordt=true",
    ebay_item_id := "123", title := "2022 Bowman Chrome Jane Doe Auto",
    sale_price := 30, sale_date := 90, sale_type := "Auction",
    release_year := some 2022, card_type := .base }

/-- A listing whose normalized URL is a strict prefix of
`exLegacyRow`'s stored URL. -/
def exSaleC3 : FilteredSale :=
  { toParsedSale :=
    { title := "2023 Bowman Chrome John Smith Auto",
      ebayUrl := "https://www.ebay.com/itm/123", ebayItemId := "123",
      salePrice := 40, saleDate := 100, saleType := "Auction",
      releaseYear := some 2023 },
    isBaseAuto := true, isRefractor := false, exclusionReason := none }

/-- End-to-end scenario A listing: graded (PSA 10). -/
def exSaleGradedPSA : ParsedSale :=
  { title := "2024 Player X Chrome Auto PSA 10",
    ebayUrl := "https://www.ebay.com/itm/1", ebayItemId := "1",
    salePrice := 50, saleDate := 10, saleType := "Auction",
    releaseYear := some 2024 }

/-- A listing matching both an IP-autograph indicator and the /499
refractor fallback signature. -/
def exSaleIp : ParsedSale :=
  { title := "2022 Bowman Chrome Refractor /499 Hand Signed Auto",
    ebayUrl := "https://www.ebay.com/itm/11", ebayItemId := "11",
    salePrice := 20, saleDate := 7, saleType := "Auction",
    releaseYear := some 2022 }

/-- A listing matching both a grading token and lot indicators. -/
def exSaleGradedLot : ParsedSale :=
  { title := "PSA 10 Lot (2) 2023 Bowman Chrome Auto",
    ebayUrl := "https://www.ebay.com/itm/12", ebayItemId := "12",
    salePrice := 80, saleDate := 8, saleType := "Auction",
    releaseYear := some 2023 }

/-- A stored row for the market-summary examples. -/
def exSummaryRow (url : String) (price : ℚ) (date : Nat) : SaleRow :=
  { player_name := "John Smith", normalized_player_name := "john smith",
    ebay_url := url, ebay_item_id := url, title := "t", sale_price := price,
    sale_date := date, sale_type := "Auction", release_year := some 2023,
    card_type := .base }

/-- Five stored rows with prices 10..50 (most recent 50). -/
def exSummaryDb5 : List SaleRow :=
  [exSummaryRow "u1" 10 1, exSummaryRow "u2" 20 2, exSummaryRow "u3" 30 3,
   exSummaryRow "u4" 40 4, exSummaryRow "u5" 50 5]

/-- Two stored rows with prices 10 and 20. -/
def exSummaryDb2 : List SaleRow :=
  [exSummaryRow "u1" 10 1, exSummaryRow "u2" 20 2]

/-- Two stored rows whose price mean has three decimals. -/
def exMedianDb : List SaleRow :=
  [exSummaryRow "um1" 10 2, exSummaryRow "um2" 10.006 1]

/-- Classified base-variant listing with a given year (for year-inference
examples). -/
def exClassifiedBase (year : Nat) : FilteredSale :=
  { toParsedSale :=
    { title := "t", ebayUrl := "u", ebayItemId := "i", salePrice := 1,
      saleDate := 0, saleType := "Auction", releaseYear := some year },
    isBaseAuto := true, isRefractor := false, exclusionReason := none }

/-! # Helper lemmas -/

/-- A reason built by the graded rule never coincides with a reason built
by the textual lot rule. -/
lemma graded_reason_ne_lot (g l : String) :
    ("Graded card: " ++ g : String) ≠ ("Lot/bundle: " ++ l : String) := by
  intro h
  have hd := congrArg (fun s : String => s.data.head?) h
  simp only [String.data_append] at hd
  simp at hd

/-- A reason built by the graded rule never coincides with a reason built
by the lot-quantity rule. -/
lemma graded_reason_ne_lotq (g m : String) :
    ("Graded card: " ++ g : String) ≠ ("Lot quantity: " ++ m : String) := by
  intro h
  have hd := congrArg (fun s : String => s.data.head?) h
  simp only [String.data_append] at hd
  simp at hd

/-- Stripping the query string is idempotent. -/
lemma normalizeEbayUrl_idem (u : String) :
    normalizeEbayUrl (normalizeEbayUrl u) = normalizeEbayUrl u := by
  unfold normalizeEbayUrl
  simp [List.takeWhile_takeWhile]

/-- `saleExists` is insensitive to pre-normalizing its argument. -/
lemma saleExists_normalize (db : List SaleRow) (u : String) :
    saleExists db (normalizeEbayUrl u) = saleExists db u := by
  unfold saleExists
  rw [normalizeEbayUrl_idem]

/-- `insertSale` reports a duplicate exactly when `saleExists` holds on the
incoming store. -/
lemma insertSale_fst (db : List SaleRow) (p : String) (sale : FilteredSale)
    (ct : CardType) :
    (insertSale db p sale ct).1 = !saleExists db sale.ebayUrl := by
  unfold insertSale
  dsimp only
  rw [saleExists_normalize]
  split <;> simp_all

/-- A duplicate leaves the store unchanged. -/
lemma insertSale_snd_of_dup (db : List SaleRow) (p : String) (sale : FilteredSale)
    (ct : CardType) (h : saleExists db sale.ebayUrl = true) :
    (insertSale db p sale ct).2 = db := by
  unfold insertSale
  dsimp only
  rw [saleExists_normalize, h]
  simp

/-- Characterization of `saleExists`: some stored row equals the
normalized URL or matches it as a `LIKE` prefix pattern. -/
lemma saleExists_iff (db : List SaleRow) (u : String) :
    saleExists db u = true ↔
      ∃ row ∈ db, row.ebay_url = normalizeEbayUrl u ∨
        sqlLike (normalizeEbayUrl u ++ "%") row.ebay_url = true := by
  unfold saleExists
  dsimp only
  rw [List.any_eq_true]
  constructor
  · rintro ⟨row, hrow, hcond⟩
    exact ⟨row, hrow, by simpa [Bool.or_eq_true, beq_iff_eq] using hcond⟩
  · rintro ⟨row, hrow, hcond⟩
    exact ⟨row, hrow, by simpa [Bool.or_eq_true, beq_iff_eq] using hcond⟩

/-- The head of an ascending insertion sort of a non-empty list is its
minimum. -/
lemma head_insertionSort_min (l : List Nat) (hne : l ≠ []) :
    ∃ m, (List.insertionSort (fun a b => a ≤ b) l).head? = some m ∧
      m ∈ l ∧ ∀ y ∈ l, m ≤ y := by
  have hperm := List.perm_insertionSort (fun a b : Nat => a ≤ b) l
  have hsorted := List.sorted_insertionSort (fun a b : Nat => a ≤ b) l
  cases hs : List.insertionSort (fun a b : Nat => a ≤ b) l with
  | nil =>
    rw [hs] at hperm
    exact absurd hperm.symm.eq_nil hne
  | cons m t =>
    rw [hs] at hperm hsorted
    refine ⟨m, rfl, hperm.subset (List.mem_cons_self m t), ?_⟩
    intro y hy
    have hys : y ∈ m :: t := hperm.symm.subset hy
    rcases List.mem_cons.mp hys with h | h
    · exact h ▸ le_refl m
    · exact List.rel_of_sorted_cons hsorted y h

/-! # Claims

Each claim of the specification is settled by one theorem below (with a
witness for theorems that carry hypotheses, and a counterexample where
the claim fails on the code). -/

/-- C1 (amended): every listing is classified into exactly one of
{admissible as base with a null exclusion reason and no fallback flag,
not base-admissible with a non-null exclusion reason}; the
fallback-admissible listings are a subset of the second class, so a
fallback listing carries an exclusion reason. -/
theorem C1_classification_partition (sale : ParsedSale) :
    ((categorizeListingSale sale).isBaseAuto = true ∧
      (categorizeListingSale sale).exclusionReason = none ∧
      (categorizeListingSale sale).isRefractor = false)
    ∨ ((categorizeListingSale sale).isBaseAuto = false ∧
      ((categorizeListingSale sale).exclusionReason).isSome = true) := by
  unfold categorizeListingSale mkExcluded
  cases h1 : List.find? (fun g => strIncludes (lowerStr sale.title) g) GRADED_INDICATORS <;>
    simp only [h1] <;>
  [skip; simp]
  cases h2 : List.find? (fun l => strIncludes (lowerStr sale.title) l) LOT_INDICATORS <;>
    simp only [h2] <;>
  [skip; simp]
  cases h3 : findLotQuantity sale.title <;> simp only [h3] <;> [skip; simp]
  cases h4 : List.find? (fun p => strIncludes (lowerStr sale.title) p) EXCLUDED_PRODUCTS <;>
    simp only [h4] <;>
  [skip; simp]
  cases h5 : List.find? (fun ind => strIncludes (lowerStr sale.title) ind)
      IP_AUTOGRAPH_INDICATORS <;>
    simp only [h5] <;>
  [skip; simp]
  by_cases h6 : serialPatternTest sale.title = true <;>
    simp only [h6, if_true, if_false, Bool.not_eq_true] <;>
  [simp; skip]
  cases h7 : List.find? (fun c => strIncludes (lowerStr sale.title) c) PARALLEL_COLORS <;>
    simp only [h7] <;> simp

/-- C1 counterexample: the /499-refractor listing is marked as a fallback
variant and simultaneously carries the exclusion reason "Numbered
parallel" — the claimed exclusivity between admissibility and a non-null
exclusion reason fails on the code. -/
theorem C1_fallback_reason_counterexample :
    (categorizeListingSale exSaleRef499).isRefractor = true ∧
    (categorizeListingSale exSaleRef499).exclusionReason = some "Numbered parallel" := by
  decide

/-- C8 (confirmed): a title matching an in-person/aftermarket-autograph
indicator is excluded absolutely — the classified listing is never a
fallback variant (and never base-admissible), even when the title also
matches the refractor plus /499 fallback signature. -/
theorem C8_ip_never_fallback (sale : ParsedSale)
    (h : ∃ ind ∈ IP_AUTOGRAPH_INDICATORS,
      strIncludes (lowerStr sale.title) ind = true) :
    (categorizeListingSale sale).isRefractor = false ∧
    (categorizeListingSale sale).isBaseAuto = false ∧
    ((categorizeListingSale sale).exclusionReason).isSome = true := by
  unfold categorizeListingSale
  obtain ⟨ind, hmem, hinc⟩ := h
  repeat' split <;> simp_all [mkExcluded]

/-- C8 witness: a hand-signed /499-refractor title hits the hypothesis and
is not a fallback variant. -/
theorem C8_ip_never_fallback_witness :
    (∃ ind ∈ IP_AUTOGRAPH_INDICATORS,
      strIncludes (lowerStr exSaleIp.title) ind = true) ∧
    (categorizeListingSale exSaleIp).isRefractor = false :=
  ⟨by decide, (C8_ip_never_fallback exSaleIp (by decide)).1⟩

/-- C9 (confirmed): when a title contains both a grading-service token and
a lot/bundle indicator, the classifier excludes it with the graded reason
(rule 1), never with either lot reason (rule 2). -/
theorem C9_graded_precedes_lot (sale : ParsedSale)
    (hg : ∃ g ∈ GRADED_INDICATORS, strIncludes (lowerStr sale.title) g = true)
    (_hl : ∃ l ∈ LOT_INDICATORS, strIncludes (lowerStr sale.title) l = true) :
    (∃ g ∈ GRADED_INDICATORS,
      (categorizeListingSale sale).exclusionReason = some ("Graded card: " ++ g))
    ∧ (∀ l : String,
      (categorizeListingSale sale).exclusionReason ≠ some ("Lot/bundle: " ++ l))
    ∧ (∀ m : String,
      (categorizeListingSale sale).exclusionReason ≠ some ("Lot quantity: " ++ m))
    ∧ (categorizeListingSale sale).isBaseAuto = false := by
  obtain ⟨g, hmem, hinc⟩ := hg
  have hreason : ∃ g' ∈ GRADED_INDICATORS,
      (categorizeListingSale sale).exclusionReason = some ("Graded card: " ++ g') ∧
      (categorizeListingSale sale).isBaseAuto = false := by
    unfold categorizeListingSale
    cases hfind : List.find? (fun g => strIncludes (lowerStr sale.title) g)
        GRADED_INDICATORS with
    | none => exact absurd hinc (by simpa using List.find?_eq_none.mp hfind g hmem)
    | some g' =>
      refine ⟨g', List.mem_of_find?_eq_some hfind, ?_, ?_⟩ <;>
        simp [hfind, mkExcluded]
  obtain ⟨g', hmem', hr, hb⟩ := hreason
  refine ⟨⟨g', hmem', hr⟩, ?_, ?_, hb⟩
  · intro l hcontra
    rw [hr] at hcontra
    exact graded_reason_ne_lot g' l (by simpa using hcontra)
  · intro m hcontra
    rw [hr] at hcontra
    exact graded_reason_ne_lotq g' m (by simpa using hcontra)

/-- C9 witness: a "PSA 10 Lot (2)" title satisfies both hypotheses and is
excluded with the graded reason. -/
theorem C9_graded_precedes_lot_witness :
    (∃ g ∈ GRADED_INDICATORS,
      strIncludes (lowerStr exSaleGradedLot.title) g = true) ∧
    (∃ g ∈ GRADED_INDICATORS,
      (categorizeListingSale exSaleGradedLot).exclusionReason
        = some ("Graded card: " ++ g)) :=
  ⟨by decide,
    (C9_graded_precedes_lot exSaleGradedLot (by decide) (by decide)).1⟩

/-- C5 (confirmed): year inference returns the minimum year observed among
base-variant listings when any base-variant listing has a year; otherwise
the minimum among fallback-variant listings; and none when neither set
contributes a year.  The result depends only on membership, never on
frequency. -/
theorem C5_year_inference_minimum (sales : List FilteredSale) :
    (baseYearsOf sales ≠ [] →
      ∃ m, determineFirstBowmanYear sales = some m ∧
        m ∈ baseYearsOf sales ∧ ∀ y ∈ baseYearsOf sales, m ≤ y)
    ∧ (baseYearsOf sales = [] → refractorYearsOf sales ≠ [] →
      ∃ m, determineFirstBowmanYear sales = some m ∧
        m ∈ refractorYearsOf sales ∧ ∀ y ∈ refractorYearsOf sales, m ≤ y)
    ∧ (baseYearsOf sales = [] → refractorYearsOf sales = [] →
      determineFirstBowmanYear sales = none) := by
  unfold determineFirstBowmanYear
  refine ⟨?_, ?_, ?_⟩
  · intro h
    have hb : (baseYearsOf sales).isEmpty = false := by
      simpa [List.isEmpty_iff] using h
    simpa [hb] using head_insertionSort_min (baseYearsOf sales) h
  · intro hb h
    have hb' : (baseYearsOf sales).isEmpty = true := by simp [hb]
    simpa [hb'] using head_insertionSort_min (refractorYearsOf sales) h
  · intro hb hr
    simp [hb, hr]

/-- C5 witness: base-variant years {2023, 2022, 2024} yield minimum 2022
regardless of frequency. -/
theorem C5_year_inference_minimum_witness :
    baseYearsOf [exClassifiedBase 2023, exClassifiedBase 2022, exClassifiedBase 2024] ≠ [] ∧
    determineFirstBowmanYear
      [exClassifiedBase 2023, exClassifiedBase 2022, exClassifiedBase 2024] = some 2022 ∧
    (∃ m, determineFirstBowmanYear
        [exClassifiedBase 2023, exClassifiedBase 2022, exClassifiedBase 2024] = some m ∧
      m ∈ baseYearsOf [exClassifiedBase 2023, exClassifiedBase 2022, exClassifiedBase 2024] ∧
      ∀ y ∈ baseYearsOf [exClassifiedBase 2023, exClassifiedBase 2022, exClassifiedBase 2024],
        m ≤ y) :=
  ⟨by decide, by decide,
    (C5_year_inference_minimum
      [exClassifiedBase 2023, exClassifiedBase 2022, exClassifiedBase 2024]).1 (by decide)⟩

/-- C3 (amended): a listing is reported as a duplicate (and the store is
left unchanged) if and only if some existing row — of any player,
system-wide — stores exactly the listing's normalized URL or a URL that
matches the normalized URL followed by a SQL `LIKE` percent wildcard (the
backwards-compatibility prefix match for rows stored before URL
normalization). -/
theorem C3_duplicate_iff_exact_or_prefix (db : List SaleRow) (playerName : String)
    (sale : FilteredSale) (ct : CardType) :
    ((insertSale db playerName sale ct).1 = false ↔
      ∃ row ∈ db, row.ebay_url = normalizeEbayUrl sale.ebayUrl ∨
        sqlLike (normalizeEbayUrl sale.ebayUrl ++ "%") row.ebay_url = true)
    ∧ ((insertSale db playerName sale ct).1 = false →
      (insertSale db playerName sale ct).2 = db) := by
  constructor
  · rw [insertSale_fst, ← saleExists_iff]
    cases saleExists db sale.ebayUrl <;> simp
  · intro h
    rw [insertSale_fst] at h
    exact insertSale_snd_of_dup db playerName sale ct (by simpa using h)

/-- C3 witness: the amended characterization applied at a concrete store
and listing. -/
theorem C3_duplicate_iff_exact_or_prefix_witness :
    (((insertSale [exLegacyRow] "John Smith" exSaleC3 .base).1 = false ↔
      ∃ row ∈ [exLegacyRow], row.ebay_url = normalizeEbayUrl exSaleC3.ebayUrl ∨
        sqlLike (normalizeEbayUrl exSaleC3.ebayUrl ++ "%") row.ebay_url = true)
    ∧ ((insertSale [exLegacyRow] "John Smith" exSaleC3 .base).1 = false →
      (insertSale [exLegacyRow] "John Smith" exSaleC3 .base).2 = [exLegacyRow])) :=
  C3_duplicate_iff_exact_or_prefix [exLegacyRow] "John Smith" exSaleC3 .base

/-- C3 counterexample: a listing whose normalized URL equals no stored
row's URL exactly is nevertheless reported as a duplicate, because a
legacy row's URL extends it with a query string and matches the `LIKE`
prefix check — refuting "duplicate iff a row with exactly that URL
exists". -/
theorem C3_prefix_duplicate_counterexample :
    (insertSale [exLegacyRow] "John Smith" exSaleC3 .base).1 = false ∧
    ∀ row ∈ [exLegacyRow], row.ebay_url ≠ normalizeEbayUrl exSaleC3.ebayUrl := by
  decide

/-- C2 (amended): the name filter runs before the base/fallback bucket
counts and persistence, but year inference operates on the full
classified list, before the player-name filter — so a name-mismatched
listing can contribute (and even determine) the inferred release year. -/
theorem C2_year_inference_unfiltered (playerName : String) (rawSales : List ParsedSale)
    (db : List SaleRow) (hne : rawSales ≠ []) :
    ((scrapeAndStorePlayer playerName none rawSales db).1).inferredFirstBowmanYear
      = determineFirstBowmanYear (categorizedOf rawSales) := by
  unfold scrapeAndStorePlayer
  have h : rawSales.isEmpty = false := by simpa [List.isEmpty_iff] using hne
  simp only [h, Bool.false_eq_true, if_false]
  split <;> simp [resolvedYearOf]

/-- C2 witness: the amended statement at a concrete response set. -/
theorem C2_year_inference_unfiltered_witness :
    [exSaleA, exSaleB] ≠ ([] : List ParsedSale) ∧
    (scrapeAndStorePlayer "John Smith" none [exSaleA, exSaleB] []).1.inferredFirstBowmanYear
      = determineFirstBowmanYear (categorizedOf [exSaleA, exSaleB]) :=
  ⟨by decide, C2_year_inference_unfiltered "John Smith" [exSaleA, exSaleB] [] (by decide)⟩

/-- C2 counterexample: the Jane Doe listing fails the John Smith name
filter, yet the pipeline's inferred year is 2022 — the year carried only
by that name-mismatched listing — while inference restricted to the
name-filtered listings would give 2023. -/
theorem C2_name_mismatch_year_counterexample :
    titleContainsPlayerName exSaleB.title "John Smith" = false ∧
    (scrapeAndStorePlayer "John Smith" none [exSaleA, exSaleB] []).1.inferredFirstBowmanYear
      = some 2022 ∧
    determineFirstBowmanYear (nameMatchedOf "John Smith" [exSaleA, exSaleB]) = some 2023 := by
  decide

/-- When the response is non-empty but the selected variant set is empty,
the run fails with NO_VALID_SALES, reports zero inserted and duplicate
sales and leaves the store unchanged. -/
lemma run_no_valid_sales (playerName : String) (targetYear : Option Nat)
    (rawSales : List ParsedSale) (db : List SaleRow) (hne : rawSales ≠ [])
    (hempty : (selectedOf playerName targetYear rawSales).1 = []) :
    (scrapeAndStorePlayer playerName targetYear rawSales db).1.success = false ∧
    (scrapeAndStorePlayer playerName targetYear rawSales db).1.error = some .NO_VALID_SALES ∧
    (scrapeAndStorePlayer playerName targetYear rawSales db).1.salesInserted = 0 ∧
    (scrapeAndStorePlayer playerName targetYear rawSales db).1.salesDuplicate = 0 ∧
    (scrapeAndStorePlayer playerName targetYear rawSales db).2 = db := by
  unfold scrapeAndStorePlayer
  have h : rawSales.isEmpty = false := by simpa [List.isEmpty_iff] using hne
  simp [h, hempty]

/-- C7 (confirmed): whenever the source returns a non-empty listing set
but the selected variant set after classification, name filtering and
year filtering is empty, the pipeline returns a failure with error code
NO_VALID_SALES, zero inserted and zero duplicate sales, and the store is
unchanged. -/
theorem C7_no_valid_sales_store_unchanged (playerName : String)
    (targetYear : Option Nat) (rawSales : List ParsedSale) (db : List SaleRow)
    (hne : rawSales ≠ [])
    (hempty : (selectedOf playerName targetYear rawSales).1 = []) :
    (scrapeAndStorePlayer playerName targetYear rawSales db).1.success = false ∧
    (scrapeAndStorePlayer playerName targetYear rawSales db).1.error = some .NO_VALID_SALES ∧
    (scrapeAndStorePlayer playerName targetYear rawSales db).1.salesInserted = 0 ∧
    (scrapeAndStorePlayer playerName targetYear rawSales db).1.salesDuplicate = 0 ∧
    (scrapeAndStorePlayer playerName targetYear rawSales db).2 = db :=
  run_no_valid_sales playerName targetYear rawSales db hne hempty

/-- C7 witness: end-to-end scenario A — a single graded listing
("... PSA 10") is excluded, the run fails with NO_VALID_SALES and
persists nothing. -/
theorem C7_no_valid_sales_store_unchanged_witness :
    [exSaleGradedPSA] ≠ ([] : List ParsedSale) ∧
    (selectedOf "Player X" none [exSaleGradedPSA]).1 = [] ∧
    ((categorizeListingSale exSaleGradedPSA).exclusionReason = some "Graded card: psa") ∧
    ((scrapeAndStorePlayer "Player X" none [exSaleGradedPSA] []).1.success = false ∧
     (scrapeAndStorePlayer "Player X" none [exSaleGradedPSA] []).1.error = some .NO_VALID_SALES ∧
     (scrapeAndStorePlayer "Player X" none [exSaleGradedPSA] []).1.salesInserted = 0 ∧
     (scrapeAndStorePlayer "Player X" none [exSaleGradedPSA] []).1.salesDuplicate = 0 ∧
     (scrapeAndStorePlayer "Player X" none [exSaleGradedPSA] []).2 = []) :=
  ⟨by decide, by decide, by decide,
    C7_no_valid_sales_store_unchanged "Player X" none [exSaleGradedPSA] []
      (by decide) (by decide)⟩

/-- C10 (confirmed): when no whitespace- or hyphen-separated token of the
player's name is longer than 2 characters, the title check returns false
for every title, so a run over any non-empty listing set fails with
NO_VALID_SALES and persists nothing. -/
theorem C10_short_name_no_valid_sales (playerName : String)
    (hshort : ∀ t ∈ splitNameTokens (lowerStr playerName).data, t.length ≤ 2) :
    (∀ title : String, titleContainsPlayerName title playerName = false)
    ∧ ∀ (targetYear : Option Nat) (rawSales : List ParsedSale) (db : List SaleRow),
        rawSales ≠ [] →
        (scrapeAndStorePlayer playerName targetYear rawSales db).1.success = false ∧
        (scrapeAndStorePlayer playerName targetYear rawSales db).1.error
          = some .NO_VALID_SALES ∧
        (scrapeAndStorePlayer playerName targetYear rawSales db).2 = db := by
  have hparts : (splitNameTokens (lowerStr playerName).data).filter
      (fun p => decide (2 < p.length)) = [] := by
    rw [List.filter_eq_nil_iff]
    intro t ht
    simpa using Nat.not_lt.mpr (hshort t ht)
  have hname : ∀ title : String, titleContainsPlayerName title playerName = false := by
    intro title
    unfold titleContainsPlayerName
    dsimp only
    rw [hparts]
    simp
  refine ⟨hname, ?_⟩
  intro targetYear rawSales db hne
  have hmatched : nameMatchedOf playerName rawSales = [] := by
    unfold nameMatchedOf
    rw [List.filter_eq_nil_iff]
    intro s _
    simp [hname]
  have hsel : (selectedOf playerName targetYear rawSales).1 = [] := by
    unfold selectedOf
    rw [hmatched]
    cases resolvedYearOf targetYear rawSales <;> simp [selectVariantSet]
  obtain ⟨a, b, _, _, e⟩ := run_no_valid_sales playerName targetYear rawSales db hne hsel
  exact ⟨a, b, e⟩

/-- C10 witness: for player "Bo Ek" every token is at most 2 characters,
no title matches, and a run over a non-empty response fails with
NO_VALID_SALES leaving the store empty. -/
theorem C10_short_name_no_valid_sales_witness :
    (∀ t ∈ splitNameTokens (lowerStr "Bo Ek").data, t.length ≤ 2) ∧
    titleContainsPlayerName exSaleA.title "Bo Ek" = false ∧
    ((scrapeAndStorePlayer "Bo Ek" none [exSaleA] []).1.success = false ∧
     (scrapeAndStorePlayer "Bo Ek" none [exSaleA] []).1.error = some .NO_VALID_SALES ∧
     (scrapeAndStorePlayer "Bo Ek" none [exSaleA] []).2 = []) :=
  ⟨by decide,
    (C10_short_name_no_valid_sales "Bo Ek" (by decide)).1 exSaleA.title,
    (C10_short_name_no_valid_sales "Bo Ek" (by decide)).2 none [exSaleA] [] (by decide)⟩

/-- Inserted plus duplicate counts of the store loop equal the number of listings processed. -/
lemma storeSalesLoop_counts (p : String) (ct : CardType) :
    ∀ (sales : List FilteredSale) (db : List SaleRow),
      (storeSalesLoop p ct sales db).1 + (storeSalesLoop p ct sales db).2.1
        = sales.length := by
  intro sales
  induction sales with
  | nil => intro db; simp [storeSalesLoop]
  | cons s rest ih =>
    intro db
    unfold storeSalesLoop
    dsimp only
    split <;> simp only [List.length_cons] <;> have := ih (insertSale db p s ct).2 <;> omega

/-- Extending the store preserves a positive duplicate check. -/
lemma saleExists_mono (db rows : List SaleRow) (u : String)
    (h : saleExists db u = true) : saleExists (db ++ rows) u = true := by
  unfold saleExists at *
  dsimp only at *
  rw [List.any_append, h]
  simp

/-- One insertion only appends to the store. -/
lemma insertSale_extends (db : List SaleRow) (p : String) (s : FilteredSale)
    (ct : CardType) : ∃ rows, (insertSale db p s ct).2 = db ++ rows := by
  unfold insertSale
  dsimp only
  split
  · exact ⟨[], by simp⟩
  · exact ⟨_, rfl⟩

/-- After an insertion attempt the listing's URL is present. -/
lemma insertSale_exists_self (db : List SaleRow) (p : String) (s : FilteredSale)
    (ct : CardType) : saleExists (insertSale db p s ct).2 s.ebayUrl = true := by
  unfold insertSale
  dsimp only
  split
  · rename_i h
    rwa [saleExists_normalize] at h
  · unfold saleExists
    dsimp only
    rw [List.any_append]
    simp

/-- The store loop only appends to the store. -/
lemma storeSalesLoop_extends (p : String) (ct : CardType) :
    ∀ (sales : List FilteredSale) (db : List SaleRow),
      ∃ rows, (storeSalesLoop p ct sales db).2.2 = db ++ rows := by
  intro sales
  induction sales with
  | nil => intro db; exact ⟨[], by simp [storeSalesLoop]⟩
  | cons s rest ih =>
    intro db
    unfold storeSalesLoop
    dsimp only
    obtain ⟨r1, h1⟩ := insertSale_extends db p s ct
    obtain ⟨r2, h2⟩ := ih (insertSale db p s ct).2
    refine ⟨r1 ++ r2, ?_⟩
    split <;> dsimp only <;> rw [h2, h1, List.append_assoc]

/-- After the store loop, every processed listing's URL is present. -/
lemma storeSalesLoop_exists_all (p : String) (ct : CardType) :
    ∀ (sales : List FilteredSale) (db : List SaleRow) (s : FilteredSale),
      s ∈ sales → saleExists (storeSalesLoop p ct sales db).2.2 s.ebayUrl = true := by
  intro sales
  induction sales with
  | nil => intro db s hs; simp at hs
  | cons a rest ih =>
    intro db s hs
    unfold storeSalesLoop
    dsimp only
    rcases List.mem_cons.mp hs with h | h
    · subst h
      obtain ⟨r2, h2⟩ := storeSalesLoop_extends p ct rest (insertSale db p s ct).2
      have hself := insertSale_exists_self db p s ct
      have := saleExists_mono _ r2 _ hself
      rw [← h2] at this
      split <;> exact this
    · have := ih (insertSale db p a ct).2 s h
      split <;> exact this

/-- A store loop over listings that all already exist inserts nothing and leaves the store unchanged. -/
lemma storeSalesLoop_all_dup (p : String) (ct : CardType) :
    ∀ (sales : List FilteredSale) (db : List SaleRow),
      (∀ s ∈ sales, saleExists db s.ebayUrl = true) →
      storeSalesLoop p ct sales db = (0, sales.length, db) := by
  intro sales
  induction sales with
  | nil => intro db _; simp [storeSalesLoop]
  | cons a rest ih =>
    intro db h
    have ha := h a (List.mem_cons_self a rest)
    have hfst : (insertSale db p a ct).1 = false := by
      rw [insertSale_fst, ha]
      rfl
    have hsnd : (insertSale db p a ct).2 = db := insertSale_snd_of_dup db p a ct ha
    unfold storeSalesLoop
    dsimp only
    rw [hfst, hsnd]
    have := ih db (fun s hs => h s (List.mem_cons_of_mem a hs))
    simp [this]

/-- Insertion preserves URL uniqueness of the store. -/
lemma insertSale_unique (db : List SaleRow) (p : String) (s : FilteredSale)
    (ct : CardType) (h : db.Pairwise (fun a b => a.ebay_url ≠ b.ebay_url)) :
    ((insertSale db p s ct).2).Pairwise (fun a b => a.ebay_url ≠ b.ebay_url) := by
  unfold insertSale
  dsimp only
  split
  · exact h
  · rename_i hnot
    rw [List.pairwise_append]
    refine ⟨h, by simp, ?_⟩
    intro a ha b hb
    simp only [List.mem_singleton] at hb
    subst hb
    have hnot' : saleExists db (normalizeEbayUrl s.ebayUrl) = false := by
      simpa using hnot
    unfold saleExists at hnot'
    dsimp only at hnot'
    rw [normalizeEbayUrl_idem] at hnot'
    have hall := List.any_eq_false.mp hnot'
    intro heq
    exact absurd (by simp [heq]) (hall a ha)

/-- The store loop preserves URL uniqueness of the store. -/
lemma storeSalesLoop_unique (p : String) (ct : CardType) :
    ∀ (sales : List FilteredSale) (db : List SaleRow),
      db.Pairwise (fun a b => a.ebay_url ≠ b.ebay_url) →
      ((storeSalesLoop p ct sales db).2.2).Pairwise (fun a b => a.ebay_url ≠ b.ebay_url) := by
  intro sales
  induction sales with
  | nil => intro db h; simpa [storeSalesLoop] using h
  | cons a rest ih =>
    intro db h
    unfold storeSalesLoop
    dsimp only
    have := ih (insertSale db p a ct).2 (insertSale_unique db p a ct h)
    split <;> exact this





/-- On the success path, the pipeline's insert and duplicate counts and final store come from the store loop over the selected variant set. -/
lemma run_main_branch (playerName : String) (targetYear : Option Nat)
    (rawSales : List ParsedSale) (db : List SaleRow)
    (h0 : rawSales.isEmpty = false)
    (hsel : (selectedOf playerName targetYear rawSales).1.isEmpty = false) :
    (scrapeAndStorePlayer playerName targetYear rawSales db).1.salesInserted
      = (storeSalesLoop playerName (selectedOf playerName targetYear rawSales).2
          (selectedOf playerName targetYear rawSales).1 db).1
    ∧ (scrapeAndStorePlayer playerName targetYear rawSales db).1.salesDuplicate
      = (storeSalesLoop playerName (selectedOf playerName targetYear rawSales).2
          (selectedOf playerName targetYear rawSales).1 db).2.1
    ∧ (scrapeAndStorePlayer playerName targetYear rawSales db).2
      = (storeSalesLoop playerName (selectedOf playerName targetYear rawSales).2
          (selectedOf playerName targetYear rawSales).1 db).2.2 := by
  unfold scrapeAndStorePlayer
  simp [h0, hsel]

/-- C4 (confirmed): re-running the pipeline for the same player with the same
response set is idempotent with respect to the store: when the first run
reported no duplicates, the second run inserts zero rows, its duplicate
count equals the first run's inserted count, the store is unchanged by the
second run, and URL uniqueness of the store is preserved (no row is ever
created twice for the same normalized URL). -/
theorem C4_rerun_idempotent (playerName : String) (targetYear : Option Nat)
    (rawSales : List ParsedSale) (db : List SaleRow)
    (hfresh : (scrapeAndStorePlayer playerName targetYear rawSales db).1.salesDuplicate = 0)
    (huniq : db.Pairwise fun a b => a.ebay_url ≠ b.ebay_url) :
    (scrapeAndStorePlayer playerName targetYear rawSales
        (scrapeAndStorePlayer playerName targetYear rawSales db).2).1.salesInserted = 0 ∧
    (scrapeAndStorePlayer playerName targetYear rawSales
        (scrapeAndStorePlayer playerName targetYear rawSales db).2).1.salesDuplicate
      = (scrapeAndStorePlayer playerName targetYear rawSales db).1.salesInserted ∧
    (scrapeAndStorePlayer playerName targetYear rawSales
        (scrapeAndStorePlayer playerName targetYear rawSales db).2).2
      = (scrapeAndStorePlayer playerName targetYear rawSales db).2 ∧
    ((scrapeAndStorePlayer playerName targetYear rawSales db).2).Pairwise
      (fun a b => a.ebay_url ≠ b.ebay_url) := by
  by_cases h0 : rawSales.isEmpty
  · simp [scrapeAndStorePlayer, h0, huniq]
  · have h0' : rawSales.isEmpty = false := by simpa using h0
    by_cases hsel : (selectedOf playerName targetYear rawSales).1.isEmpty
    · simp [scrapeAndStorePlayer, h0', hsel, huniq]
    · have hsel' : (selectedOf playerName targetYear rawSales).1.isEmpty = false := by
        simpa using hsel
      obtain ⟨e1, e2, e3⟩ := run_main_branch playerName targetYear rawSales db h0' hsel'
      obtain ⟨f1, f2, f3⟩ := run_main_branch playerName targetYear rawSales
        (scrapeAndStorePlayer playerName targetYear rawSales db).2 h0' hsel'
      have hdup0 : (storeSalesLoop playerName (selectedOf playerName targetYear rawSales).2
          (selectedOf playerName targetYear rawSales).1 db).2.1 = 0 := by
        rw [← e2]; exact hfresh
      have hexists : ∀ s ∈ (selectedOf playerName targetYear rawSales).1,
          saleExists (storeSalesLoop playerName (selectedOf playerName targetYear rawSales).2
            (selectedOf playerName targetYear rawSales).1 db).2.2 s.ebayUrl = true :=
        fun s hs => storeSalesLoop_exists_all playerName _ _ db s hs
      have hloop2 := storeSalesLoop_all_dup playerName
        (selectedOf playerName targetYear rawSales).2
        (selectedOf playerName targetYear rawSales).1
        (storeSalesLoop playerName (selectedOf playerName targetYear rawSales).2
          (selectedOf playerName targetYear rawSales).1 db).2.2 hexists
      have hcounts := storeSalesLoop_counts playerName
        (selectedOf playerName targetYear rawSales).2
        (selectedOf playerName targetYear rawSales).1 db
      refine ⟨?_, ?_, ?_, ?_⟩
      · rw [f1, e3, hloop2]
      · rw [f2, e3, hloop2, e1]
        simp only []
        omega
      · rw [f3, e3, hloop2]
      · rw [e3]
        exact storeSalesLoop_unique playerName _ _ db huniq

/-- C4 witness: a fresh store, one clean listing; the first run inserts it
with no duplicates and the re-run reports inserted 0, duplicate 1, same
store. -/
theorem C4_rerun_idempotent_witness :
    (scrapeAndStorePlayer "John Smith" none [exSaleA] []).1.salesDuplicate = 0 ∧
    (scrapeAndStorePlayer "John Smith" none [exSaleA] []).1.salesInserted = 1 ∧
    ((scrapeAndStorePlayer "John Smith" none [exSaleA]
        (scrapeAndStorePlayer "John Smith" none [exSaleA] []).2).1.salesInserted = 0 ∧
      (scrapeAndStorePlayer "John Smith" none [exSaleA]
        (scrapeAndStorePlayer "John Smith" none [exSaleA] []).2).1.salesDuplicate
        = (scrapeAndStorePlayer "John Smith" none [exSaleA] []).1.salesInserted ∧
      (scrapeAndStorePlayer "John Smith" none [exSaleA]
        (scrapeAndStorePlayer "John Smith" none [exSaleA] []).2).2
        = (scrapeAndStorePlayer "John Smith" none [exSaleA] []).2 ∧
      ((scrapeAndStorePlayer "John Smith" none [exSaleA] []).2).Pairwise
        (fun a b => a.ebay_url ≠ b.ebay_url)) :=
  ⟨by decide, by decide,
    C4_rerun_idempotent "John Smith" none [exSaleA] [] (by decide) List.Pairwise.nil⟩

/-- Characterization of the step-6 query: at most five rows, all matching
the player and optional year filter, ordered by sale date descending, and
its head has the maximal sale date among all matching rows. -/
lemma recentFive_spec (db : List SaleRow) (player : String) (yr : Option Nat) :
    (recentFiveOf db player yr).length ≤ 5
    ∧ (∀ r ∈ recentFiveOf db player yr,
        rowMatchesPlayer (strTrim (lowerStr player)) yr r = true)
    ∧ (recentFiveOf db player yr).Sorted (fun a b => b.sale_date ≤ a.sale_date)
    ∧ (∀ h0, (recentFiveOf db player yr).head? = some h0 →
        ∀ r ∈ db.filter (rowMatchesPlayer (strTrim (lowerStr player)) yr),
          r.sale_date ≤ h0.sale_date) := by
  haveI instTot : IsTotal SaleRow (fun a b => b.sale_date ≤ a.sale_date) :=
    ⟨fun a b => le_total b.sale_date a.sale_date⟩
  haveI instTrans : IsTrans SaleRow (fun a b => b.sale_date ≤ a.sale_date) :=
    ⟨fun a b c hab hbc => le_trans hbc hab⟩
  have hre : recentFiveOf db player yr =
      (List.insertionSort (fun a b => b.sale_date ≤ a.sale_date)
        (db.filter (rowMatchesPlayer (strTrim (lowerStr player)) yr))).take 5 := rfl
  have hperm := List.perm_insertionSort (fun a b : SaleRow => b.sale_date ≤ a.sale_date)
    (db.filter (rowMatchesPlayer (strTrim (lowerStr player)) yr))
  have hsorted := List.sorted_insertionSort (fun a b : SaleRow => b.sale_date ≤ a.sale_date)
    (db.filter (rowMatchesPlayer (strTrim (lowerStr player)) yr))
  refine ⟨?_, ?_, ?_, ?_⟩
  · rw [hre, List.length_take]
    exact Nat.min_le_left _ _
  · intro r hr
    rw [hre] at hr
    have hr' := List.mem_of_mem_take hr
    exact (List.mem_filter.mp (hperm.subset hr')).2
  · rw [hre]
    exact hsorted.sublist (List.take_sublist 5 _)
  · intro h0 hh0 r hrf
    rw [hre] at hh0
    cases hs : List.insertionSort (fun a b : SaleRow => b.sale_date ≤ a.sale_date)
        (db.filter (rowMatchesPlayer (strTrim (lowerStr player)) yr)) with
    | nil => rw [hs] at hh0; simp at hh0
    | cons m t =>
      rw [hs] at hh0 hperm hsorted
      have hh0' : m = h0 := by
        simpa [List.take_succ_cons] using hh0
      subst hh0'
      have hrm : r ∈ m :: t := hperm.symm.subset hrf
      rcases List.mem_cons.mp hrm with h | h
      · exact h ▸ le_refl _
      · exact List.rel_of_sorted_cons hsorted r h

/-- The statistics block over a non-empty row list: the average is the
rounded arithmetic mean, the median is the middle of a sorted permutation
of the prices (the rounded mean of the two middles when the count is
even), and the last sale comes from the head row. -/
lemma computeMarketStats_spec (recent : List SaleRow) (hne : recent ≠ []) :
    (computeMarketStats recent).averagePrice
      = some (round2 ((recent.map (·.sale_price)).sum / (recent.length : ℚ)))
    ∧ (∃ s : List ℚ, s.Perm (recent.map (·.sale_price)) ∧ s.Sorted (· ≤ ·) ∧
        (computeMarketStats recent).medianPrice
          = some (if recent.length % 2 = 1
              then s.getD (recent.length / 2) 0
              else round2 ((s.getD (recent.length / 2 - 1) 0
                + s.getD (recent.length / 2) 0) / 2)))
    ∧ (∃ h0, recent.head? = some h0 ∧
        (computeMarketStats recent).lastSalePrice = some h0.sale_price ∧
        (computeMarketStats recent).lastSaleDate = some h0.sale_date) := by
  have hie : recent.isEmpty = false := by simpa [List.isEmpty_iff] using hne
  have hperm := List.perm_insertionSort (fun a b : ℚ => a ≤ b) (recent.map (·.sale_price))
  have hsorted := List.sorted_insertionSort (fun a b : ℚ => a ≤ b) (recent.map (·.sale_price))
  have hlen : (List.insertionSort (fun a b : ℚ => a ≤ b) (recent.map (·.sale_price))).length
      = recent.length := by
    rw [hperm.length_eq, List.length_map]
  have hsum : (List.insertionSort (fun a b : ℚ => a ≤ b) (recent.map (·.sale_price))).sum
      = (recent.map (·.sale_price)).sum := hperm.sum_eq
  refine ⟨?_, ?_, ?_⟩
  · unfold computeMarketStats
    rw [hie]
    simp only [Bool.false_eq_true, if_false]
    rw [hsum, hlen]
  · refine ⟨List.insertionSort (fun a b : ℚ => a ≤ b) (recent.map (·.sale_price)),
      hperm, hsorted, ?_⟩
    unfold computeMarketStats
    rw [hie]
    simp only [Bool.false_eq_true, if_false]
    rw [hlen]
    by_cases hodd : recent.length % 2 = 1
    · have : recent.length % 2 ≠ 0 := by omega
      rw [if_pos this, if_pos hodd]
    · have : ¬(recent.length % 2 ≠ 0) := by omega
      rw [if_neg this, if_neg hodd]
  · obtain ⟨m, t, rfl⟩ : ∃ m t, recent = m :: t := by
      cases recent with
      | nil => exact absurd rfl hne
      | cons m t => exact ⟨m, t, rfl⟩
    refine ⟨m, rfl, ?_, ?_⟩ <;>
      simp [computeMarketStats]

/-- The step-6 query evaluated on the three-decimal store. -/
lemma evalMedianDb : recentFiveOf exMedianDb "John Smith" none
    = [exSummaryRow "um1" 10 2, exSummaryRow "um2" 10.006 1] := by rfl

/-- The step-6 query evaluated on the five-row store. -/
lemma evalDb5 : recentFiveOf exSummaryDb5 "John Smith" none
    = [exSummaryRow "u5" 50 5, exSummaryRow "u4" 40 4, exSummaryRow "u3" 30 3,
       exSummaryRow "u2" 20 2, exSummaryRow "u1" 10 1] := by rfl

/-- The step-6 query evaluated on the two-row store. -/
lemma evalDb2 : recentFiveOf exSummaryDb2 "John Smith" none
    = [exSummaryRow "u2" 20 2, exSummaryRow "u1" 10 1] := by rfl

/-- C6 (amended): the market summary is computed over the at-most-5 most
recent persisted rows for the player (ordered by sale date descending,
optionally filtered by year, head the single most recent matching row);
the average is the arithmetic mean of their prices rounded to 2 decimals,
and the median is the middle value of the sorted prices — rounded to 2
decimals, as the average is, when the count is even and the two middle
values are averaged. -/
theorem C6_market_summary_rounded (db : List SaleRow) (player : String)
    (yr : Option Nat) :
    (recentFiveOf db player yr).length ≤ 5
    ∧ (∀ r ∈ recentFiveOf db player yr,
        rowMatchesPlayer (strTrim (lowerStr player)) yr r = true)
    ∧ (recentFiveOf db player yr).Sorted (fun a b => b.sale_date ≤ a.sale_date)
    ∧ (∀ h0, (recentFiveOf db player yr).head? = some h0 →
        ∀ r ∈ db.filter (rowMatchesPlayer (strTrim (lowerStr player)) yr),
          r.sale_date ≤ h0.sale_date)
    ∧ (recentFiveOf db player yr ≠ [] →
        (computeMarketStats (recentFiveOf db player yr)).averagePrice
          = some (round2 (((recentFiveOf db player yr).map (·.sale_price)).sum
              / ((recentFiveOf db player yr).length : ℚ)))
        ∧ (∃ s : List ℚ, s.Perm ((recentFiveOf db player yr).map (·.sale_price))
            ∧ s.Sorted (· ≤ ·)
            ∧ (computeMarketStats (recentFiveOf db player yr)).medianPrice
              = some (if (recentFiveOf db player yr).length % 2 = 1
                  then s.getD ((recentFiveOf db player yr).length / 2) 0
                  else round2 ((s.getD ((recentFiveOf db player yr).length / 2 - 1) 0
                    + s.getD ((recentFiveOf db player yr).length / 2) 0) / 2)))
        ∧ (∃ h0, (recentFiveOf db player yr).head? = some h0
            ∧ (computeMarketStats (recentFiveOf db player yr)).lastSalePrice
              = some h0.sale_price
            ∧ (computeMarketStats (recentFiveOf db player yr)).lastSaleDate
              = some h0.sale_date)) := by
  obtain ⟨a, b, c, d⟩ := recentFive_spec db player yr
  exact ⟨a, b, c, d, fun hne => computeMarketStats_spec _ hne⟩

/-- C6 witness: five rows priced 10..50 give average 30.00 and median
30.00; two rows priced 10 and 20 give average 15.00 and median 15.00;
the general characterization applies to the five-row store. -/
theorem C6_market_summary_rounded_witness :
    recentFiveOf exSummaryDb5 "John Smith" none ≠ [] ∧
    (computeMarketStats (recentFiveOf exSummaryDb5 "John Smith" none)).averagePrice
      = some 30 ∧
    (computeMarketStats (recentFiveOf exSummaryDb5 "John Smith" none)).medianPrice
      = some 30 ∧
    (computeMarketStats (recentFiveOf exSummaryDb2 "John Smith" none)).averagePrice
      = some 15 ∧
    (computeMarketStats (recentFiveOf exSummaryDb2 "John Smith" none)).medianPrice
      = some 15 ∧
    ((computeMarketStats (recentFiveOf exSummaryDb5 "John Smith" none)).averagePrice
      = some (round2 (((recentFiveOf exSummaryDb5 "John Smith" none).map (·.sale_price)).sum
          / ((recentFiveOf exSummaryDb5 "John Smith" none).length : ℚ)))
     ∧ (∃ s : List ℚ,
          s.Perm ((recentFiveOf exSummaryDb5 "John Smith" none).map (·.sale_price))
          ∧ s.Sorted (· ≤ ·)
          ∧ (computeMarketStats (recentFiveOf exSummaryDb5 "John Smith" none)).medianPrice
            = some (if (recentFiveOf exSummaryDb5 "John Smith" none).length % 2 = 1
                then s.getD ((recentFiveOf exSummaryDb5 "John Smith" none).length / 2) 0
                else round2
                  ((s.getD ((recentFiveOf exSummaryDb5 "John Smith" none).length / 2 - 1) 0
                    + s.getD ((recentFiveOf exSummaryDb5 "John Smith" none).length / 2) 0) / 2)))
     ∧ (∃ h0, (recentFiveOf exSummaryDb5 "John Smith" none).head? = some h0
          ∧ (computeMarketStats (recentFiveOf exSummaryDb5 "John Smith" none)).lastSalePrice
            = some h0.sale_price
          ∧ (computeMarketStats (recentFiveOf exSummaryDb5 "John Smith" none)).lastSaleDate
            = some h0.sale_date)) := by
  refine ⟨by rw [evalDb5]; simp, ?_, ?_, ?_, ?_,
    (C6_market_summary_rounded exSummaryDb5 "John Smith" none).2.2.2.2
      (by rw [evalDb5]; simp)⟩
  · rw [evalDb5]
    norm_num [computeMarketStats, exSummaryRow, List.insertionSort, List.orderedInsert,
      round2, round_eq]
  · rw [evalDb5]
    norm_num [computeMarketStats, exSummaryRow, List.insertionSort, List.orderedInsert,
      round2, round_eq]
  · rw [evalDb2]
    norm_num [computeMarketStats, exSummaryRow, List.insertionSort, List.orderedInsert,
      round2, round_eq]
  · rw [evalDb2]
    norm_num [computeMarketStats, exSummaryRow, List.insertionSort, List.orderedInsert,
      round2, round_eq]

/-- C6 counterexample: with the two most recent prices 10 and 10.006, the
mean of the two middle values is 10.003, but the computed median is 10.00
— the code rounds the even-count median to 2 decimals, so "the median is
the mean of the two middle values" fails as stated. -/
theorem C6_median_rounding_counterexample :
    (recentFiveOf exMedianDb "John Smith" none).map (·.sale_price) = [10, 10.006] ∧
    (computeMarketStats (recentFiveOf exMedianDb "John Smith" none)).medianPrice
      = some 10 ∧
    ((10 : ℚ) + 10.006) / 2 ≠ 10 := by
  refine ⟨by rw [evalMedianDb]; rfl, ?_, by norm_num⟩
  rw [evalMedianDb]
  norm_num [computeMarketStats, exSummaryRow, List.insertionSort, List.orderedInsert,
    round2, round_eq]

end UnifiedScraper
